import Mathlib

/-!
Shallow embedding of the Fetcher repository (src/app.py and
src/fixtures_fetcher.py) and proofs of the frozen claims about it.

Conventions of the embedding:
- Python dictionaries of minute buckets become association lists from the
  bucket label to an optional integer total; a bucket that is missing from
  the dictionary, has no "total" key, or has a null total all make the
  lookup return `none`, exactly as the chained `.get(interval, {}).get("total")`
  in the source does.
- Python float arithmetic is modelled by exact rationals; the two-decimal
  rounding `round(x, 2)` is modelled by rounding `x * 100` to the nearest
  integer and dividing by 100.  No claim depends on a rounding tie.
- Fallible field navigation into provider documents (`fixture["teams"]["home"]["id"]`,
  which raises `KeyError` when a key on the path is absent) is modelled by
  `Option`-valued leaves of a document structure: `none` means some key on
  the path is missing and the access raises.
- External effects (the Supabase store, the HTTP provider) are oracles
  passed in as function parameters; an oracle returning `false` / `none`
  models the call raising or failing, which the source catches.
-/

set_option autoImplicit false

/-! ### Minute-bucket data and the interval-average aggregator (app.py 115-151) -/

/-- A per-team minute-bucket dictionary: bucket label to optional total.
An absent label, an absent "total" key and a null total all collapse to
`none` under `getTotal`, mirroring `minute_data.get(interval, {}).get("total")`. -/
abbrev MinuteData := List (String × Option ℤ)

/-- `minute_data.get(interval, {}).get("total")` from the source. -/
def getTotal (md : MinuteData) (interval : String) : Option ℤ :=
  (md.lookup interval).join

/-- The first-half bucket labels from app.py line 124. -/
def first_half_intervals : List String := ["0-15", "16-30", "31-45"]

/-- The second-half bucket labels from app.py line 125. -/
def second_half_intervals : List String := ["46-60", "61-75", "76-90"]

/-- app.py 127-130: at least one first-half bucket has a non-null total. -/
def hasFirstHalfData (md : MinuteData) : Bool :=
  first_half_intervals.any (fun i => (getTotal md i).isSome)

/-- app.py 132-135: at least one second-half bucket has a non-null total. -/
def hasSecondHalfData (md : MinuteData) : Bool :=
  second_half_intervals.any (fun i => (getTotal md i).isSome)

/-- app.py 138-141: the first-half sum with null treated as 0
(`minute_data.get(interval, {}).get("total") or 0`). -/
def sumFirstHalf (md : MinuteData) : ℤ :=
  (first_half_intervals.map (fun i => (getTotal md i).getD 0)).sum

/-- app.py 143-146: the second-half sum with null treated as 0. -/
def sumSecondHalf (md : MinuteData) : ℤ :=
  (second_half_intervals.map (fun i => (getTotal md i).getD 0)).sum

/-- Python `round(x, 2)` on the exact-rational model of the float value. -/
def round2 (q : ℚ) : ℚ := (round (q * 100) : ℤ) / 100

/-- app.py 115-151, `calculate_interval_averages`: averages for first and
second half from minute data; `none` models Python `None`. -/
def calculate_interval_averages (minute_data : MinuteData) (games_played : ℕ) :
    Option ℚ × Option ℚ :=
  if games_played = 0 then (none, none)
  else
    let first_half : Option ℚ :=
      if hasFirstHalfData minute_data then
        some ((sumFirstHalf minute_data : ℚ) / (games_played : ℚ))
      else none
    let second_half : Option ℚ :=
      if hasSecondHalfData minute_data then
        some ((sumSecondHalf minute_data : ℚ) / (games_played : ℚ))
      else none
    (first_half.map round2, second_half.map round2)

/-- The concrete bucket dictionary of the spec's worked example:
0-15 total 2, 16-30 total 0, 31-45 total null. -/
def exampleBuckets : MinuteData :=
  [("0-15", some 2), ("16-30", some 0), ("31-45", none)]

/-! ### Per-team stats (app.py 153-194) and the stats record (app.py 234-259) -/

/-- The slice of a provider team document read by `process_team_stats`:
games played per venue and the three minute-bucket dictionaries. -/
structure TeamData where
  home_games : ℕ
  away_games : ℕ
  goals_for_minute : MinuteData
  goals_against_minute : MinuteData
  yellow_cards_minute : MinuteData

/-- The `stats` dictionary built by `process_team_stats`.  The outer
`Option` is dictionary-key presence (`none` = the key was never set), the
inner `Option` is the computed average itself, which may be null. -/
structure TeamStats where
  scored_home_first_half_average : Option (Option ℚ) := none
  scored_home_second_half_average : Option (Option ℚ) := none
  conceded_home_first_half_average : Option (Option ℚ) := none
  conceded_home_second_half_average : Option (Option ℚ) := none
  scored_away_first_half_average : Option (Option ℚ) := none
  scored_away_second_half_average : Option (Option ℚ) := none
  conceded_away_first_half_average : Option (Option ℚ) := none
  conceded_away_second_half_average : Option (Option ℚ) := none
  yellow_cards_first_half_average : Option (Option ℚ) := none
  yellow_cards_second_half_average : Option (Option ℚ) := none
  deriving DecidableEq

/-- app.py 153-194, `process_team_stats`: venue-split scoring and conceding
averages, plus yellow-card averages over total games. -/
def process_team_stats (team_data : TeamData) : TeamStats :=
  let home_games := team_data.home_games
  let away_games := team_data.away_games
  let goals_for := team_data.goals_for_minute
  let goals_against := team_data.goals_against_minute
  let s0 : TeamStats := {}
  let s1 :=
    if 0 < home_games then
      let home_avg := calculate_interval_averages goals_for home_games
      let home_conc := calculate_interval_averages goals_against home_games
      { s0 with
        scored_home_first_half_average := some home_avg.1
        scored_home_second_half_average := some home_avg.2
        conceded_home_first_half_average := some home_conc.1
        conceded_home_second_half_average := some home_conc.2 }
    else s0
  let s2 :=
    if 0 < away_games then
      let away_avg := calculate_interval_averages goals_for away_games
      let away_conc := calculate_interval_averages goals_against away_games
      { s1 with
        scored_away_first_half_average := some away_avg.1
        scored_away_second_half_average := some away_avg.2
        conceded_away_first_half_average := some away_conc.1
        conceded_away_second_half_average := some away_conc.2 }
    else s1
  let total_games := home_games + away_games
  if 0 < total_games then
    let cards := calculate_interval_averages team_data.yellow_cards_minute total_games
    { s2 with
      yellow_cards_first_half_average := some cards.1
      yellow_cards_second_half_average := some cards.2 }
  else s2

/-- One team's half of the `stats_record` built in `store_prediction_async`
(app.py 234-259): each field is `stats.get(key)`, which collapses an
absent key and a null value to the same persisted null. -/
structure TeamStatsRecordHalf where
  yellow_cards_first_half_average : Option ℚ
  yellow_cards_second_half_average : Option ℚ
  scored_home_first_half_average : Option ℚ
  scored_home_second_half_average : Option ℚ
  scored_away_first_half_average : Option ℚ
  scored_away_second_half_average : Option ℚ
  conceded_home_first_half_average : Option ℚ
  conceded_home_second_half_average : Option ℚ
  conceded_away_first_half_average : Option ℚ
  conceded_away_second_half_average : Option ℚ
  deriving DecidableEq

/-- The `stats.get(key)` projection used for every stats field of the
record in app.py 238-258. -/
def statsRecordHalf (stats : TeamStats) : TeamStatsRecordHalf where
  yellow_cards_first_half_average := stats.yellow_cards_first_half_average.join
  yellow_cards_second_half_average := stats.yellow_cards_second_half_average.join
  scored_home_first_half_average := stats.scored_home_first_half_average.join
  scored_home_second_half_average := stats.scored_home_second_half_average.join
  scored_away_first_half_average := stats.scored_away_first_half_average.join
  scored_away_second_half_average := stats.scored_away_second_half_average.join
  conceded_home_first_half_average := stats.conceded_home_first_half_average.join
  conceded_home_second_half_average := stats.conceded_home_second_half_average.join
  conceded_away_first_half_average := stats.conceded_away_first_half_average.join
  conceded_away_second_half_average := stats.conceded_away_second_half_average.join

/-- A team document whose goal buckets are entirely absent, with one home
game and two away games played. -/
def tdAllNull : TeamData :=
  { home_games := 1, away_games := 2, goals_for_minute := [],
    goals_against_minute := [], yellow_cards_minute := [] }

/-- A team document with data in both goal-bucket halves. -/
def tdBothVenues : TeamData :=
  { home_games := 2, away_games := 4, goals_for_minute := exampleBuckets,
    goals_against_minute := exampleBuckets, yellow_cards_minute := [] }

/-- A team document with no home games played. -/
def tdNoHome : TeamData :=
  { home_games := 0, away_games := 3, goals_for_minute := exampleBuckets,
    goals_against_minute := exampleBuckets, yellow_cards_minute := [] }

/-- A team document with no away games played. -/
def tdNoAway : TeamData :=
  { home_games := 3, away_games := 0, goals_for_minute := exampleBuckets,
    goals_against_minute := exampleBuckets, yellow_cards_minute := [] }

/-! ### Fixture ingestion (app.py 41-113) -/

/-- The leaves of a provider fixture document read by store_fixture_async
(app.py 44-66).  A leaf is `none` when some dictionary key on its access
path is absent, making the chained subscript raise KeyError.  Nullable
provider values (venue fields, the half/full-time scores) carry a nested
`Option`; league_flag is read with `.get` and can never raise, so it is a
plain optional value. -/
structure FixtureDoc where
  fixture_id : Option ℤ
  home_team_id : Option ℤ
  home_team_name : Option String
  home_team_logo : Option String
  away_team_id : Option ℤ
  away_team_name : Option String
  away_team_logo : Option String
  league_id : Option ℤ
  league_name : Option String
  league_logo : Option String
  league_flag : Option String
  league_country : Option String
  fixture_date : Option String
  venue_id : Option (Option ℤ)
  venue_city : Option (Option String)
  venue_name : Option (Option String)
  ht_home_score : Option (Option ℤ)
  ht_away_score : Option (Option ℤ)
  ft_home_score : Option (Option ℤ)
  ft_away_score : Option (Option ℤ)
  deriving DecidableEq

/-- The fixture_record dictionary built at app.py 44-66. -/
structure FixtureRecord where
  fixture_id : ℤ
  home_team_id : ℤ
  home_team_name : String
  home_team_logo : String
  away_team_id : ℤ
  away_team_name : String
  away_team_logo : String
  league_id : ℤ
  league_name : String
  league_logo : String
  league_flag : Option String
  league_country : String
  fixture_date : String
  venue_id : Option ℤ
  venue_city : Option String
  venue_name : Option String
  ht_home_score : Option ℤ
  ht_away_score : Option ℤ
  ft_home_score : Option ℤ
  ft_away_score : Option ℤ
  created_at : String
  deriving DecidableEq

/-- Building the fixture_record (app.py 44-66), in source field order;
`none` models the KeyError raised when an access path is missing.  The
wall-clock created_at value is passed in as `now`. -/
def buildFixtureRecord (now : String) (f : FixtureDoc) : Option FixtureRecord :=
  match f.fixture_id, f.home_team_id, f.home_team_name, f.home_team_logo,
      f.away_team_id, f.away_team_name, f.away_team_logo, f.league_id,
      f.league_name, f.league_logo, f.league_country, f.fixture_date,
      f.venue_id, f.venue_city, f.venue_name, f.ht_home_score,
      f.ht_away_score, f.ft_home_score, f.ft_away_score with
  | some fid, some hid, some hname, some hlogo, some aid, some aname,
      some alogo, some lid, some lname, some llogo, some lcountry,
      some fdate, some vid, some vcity, some vname, some hth, some hta,
      some fth, some fta =>
    some
      { fixture_id := fid, home_team_id := hid, home_team_name := hname,
        home_team_logo := hlogo, away_team_id := aid, away_team_name := aname,
        away_team_logo := alogo, league_id := lid, league_name := lname,
        league_logo := llogo, league_flag := f.league_flag,
        league_country := lcountry, fixture_date := fdate, venue_id := vid,
        venue_city := vcity, venue_name := vname, ht_home_score := hth,
        ht_away_score := hta, ft_home_score := fth, ft_away_score := fta,
        created_at := now }
  | _, _, _, _, _, _, _, _, _, _, _, _, _, _, _, _, _, _, _ => none

/-- app.py 41-75, store_fixture_async: build the record and upsert it;
any exception (a KeyError while building, or the store call raising,
modelled by the storeOk oracle returning false) is caught and turned into
the boolean false. -/
def store_fixture_async (storeOk : FixtureRecord → Bool) (now : String)
    (f : FixtureDoc) : Bool :=
  match buildFixtureRecord now f with
  | some record => storeOk record
  | none => false

/-- app.py 77-113, fetch_and_store_fixtures: `none` models the provider
request failing (non-200 status or exception), in which case the function
returns 0; otherwise every returned fixture document is dispatched to
store_fixture_async and the truthy results are counted. -/
def fetch_and_store_fixtures (storeOk : FixtureRecord → Bool) (now : String)
    (api_result : Option (List FixtureDoc)) : ℕ :=
  match api_result with
  | none => 0
  | some docs => (docs.map (store_fixture_async storeOk now)).count true

/-- A fixture document with every required access path present. -/
def docGood : FixtureDoc :=
  { fixture_id := some 100, home_team_id := some 1, home_team_name := some "H",
    home_team_logo := some "hl", away_team_id := some 2,
    away_team_name := some "A", away_team_logo := some "al",
    league_id := some 39, league_name := some "L", league_logo := some "ll",
    league_flag := none, league_country := some "C",
    fixture_date := some "2025-01-01T00:00:00Z", venue_id := some (some 7),
    venue_city := some (some "c"), venue_name := some (some "v"),
    ht_home_score := some none, ht_away_score := some none,
    ft_home_score := some none, ft_away_score := some none }

/-- A fixture document whose league identifier is missing. -/
def docMissingLeague : FixtureDoc := { docGood with league_id := none }

/-! ### The idempotent upsert store (spec 4.3; invoked at app.py 68-71) -/

/-- A stored table, each row carried with its conflict-key value. -/
abbrev Table (α : Type) := List (ℤ × α)

/-- The conflict-key column of a table. -/
def tableKeys {α : Type} (t : Table α) : List ℤ := t.map Prod.fst

/-- Modelled from the spec: the upsert with on_conflict fixture_id that
store_fixture_async dispatches at app.py 68-71 is implemented by the
external store, not by code under src.  Spec 4.3: write the record; if a
row with the same conflict-key value exists its fields are replaced
wholesale, otherwise a new row is appended. -/
def upsertRow {α : Type} (t : Table α) (k : ℤ) (v : α) : Table α :=
  if k ∈ tableKeys t then
    t.map (fun p => if p.1 = k then (k, v) else p)
  else t ++ [(k, v)]

/-- One fixture-ingestion run for a date: every fetched record is
dispatched as an upsert keyed by its fixture identifier (app.py 97-103
together with the upsert at 68-71). -/
def ingestRun {α : Type} (t : Table α) (rs : List (ℤ × α)) : Table α :=
  rs.foldl (fun acc r => upsertRow acc r.1 r.2) t

/-! ### Retry wrapper (fixtures_fetcher.py 19-36) -/

/-- Observable outcome of one call through retry_on_failure: the value
handed back to the caller (`none` models the wrapper returning False after
exhausting its attempts), how many times the wrapped operation was
invoked, and the sleeps performed, in order, in seconds. -/
structure RetryTrace (A : Type) where
  result : Option A
  calls : ℕ
  sleeps : List ℕ
  deriving DecidableEq

/-- The while loop of retry_on_failure: `f i` is the outcome of invocation
number i (`none` models the call raising); `remaining` is
max_attempts - attempts, the number of loop iterations still allowed. -/
def retryLoop {A : Type} (f : ℕ → Option A) (delay_seconds : ℕ) :
    ℕ → ℕ → RetryTrace A
  | _, 0 => { result := none, calls := 0, sleeps := [] }
  | i, remaining + 1 =>
    match f i with
    | some a => { result := some a, calls := 1, sleeps := [] }
    | none =>
      if remaining = 0 then { result := none, calls := 1, sleeps := [] }
      else
        let t := retryLoop f delay_seconds (i + 1) remaining
        { result := t.result, calls := t.calls + 1,
          sleeps := delay_seconds :: t.sleeps }

/-- fixtures_fetcher.py 19-36, retry_on_failure(max_attempts, delay_seconds)
applied to an operation whose i-th invocation outcome is `f i`. -/
def retry_on_failure {A : Type} (max_attempts delay_seconds : ℕ)
    (f : ℕ → Option A) : RetryTrace A :=
  retryLoop f delay_seconds 0 max_attempts

/-! ### upsert_fixture and its decoration (fixtures_fetcher.py 38-97) -/

/-- The leaves of a provider fixture document read by upsert_fixture
(fixtures_fetcher.py 44-84); outer `none` means a key on the access path
is missing (KeyError), an inner `Option` is a nullable provider value. -/
structure FetcherFixtureDoc where
  fixture_id : Option ℤ
  referee : Option (Option String)
  timezone : Option String
  date : Option String
  kickoff_timestamp : Option ℤ
  status_long : Option String
  status_short : Option String
  goals_home : Option (Option ℤ)
  goals_away : Option (Option ℤ)
  halftime_home : Option (Option ℤ)
  halftime_away : Option (Option ℤ)
  fulltime_home : Option (Option ℤ)
  fulltime_away : Option (Option ℤ)
  extratime_home : Option (Option ℤ)
  extratime_away : Option (Option ℤ)
  penalty_home : Option (Option ℤ)
  penalty_away : Option (Option ℤ)
  venue_id : Option (Option ℤ)
  venue_name : Option (Option String)
  venue_city : Option (Option String)
  league_id : Option ℤ
  league_name : Option String
  league_country : Option String
  league_logo : Option String
  league_flag : Option (Option String)
  league_season : Option ℤ
  league_round : Option String
  home_team_id : Option ℤ
  home_team_name : Option String
  home_team_logo : Option String
  away_team_id : Option ℤ
  away_team_name : Option String
  away_team_logo : Option String
  deriving DecidableEq

/-- The fixture_data dictionary built at fixtures_fetcher.py 44-84. -/
structure FetcherFixtureData where
  fixture_id : ℤ
  referee : Option String
  timezone : String
  date : String
  kickoff_timestamp : ℤ
  status_long : String
  status_short : String
  goals_home : Option ℤ
  goals_away : Option ℤ
  halftime_home : Option ℤ
  halftime_away : Option ℤ
  fulltime_home : Option ℤ
  fulltime_away : Option ℤ
  extratime_home : Option ℤ
  extratime_away : Option ℤ
  penalty_home : Option ℤ
  penalty_away : Option ℤ
  venue_id : Option ℤ
  venue_name : Option String
  venue_city : Option String
  league_id : ℤ
  league_name : String
  league_country : String
  league_logo : String
  league_flag : Option String
  league_season : ℤ
  league_round : String
  home_team_id : ℤ
  home_team_name : String
  home_team_logo : String
  away_team_id : ℤ
  away_team_name : String
  away_team_logo : String
  deriving DecidableEq

/-- Building fixture_data (fixtures_fetcher.py 44-84); `none` models the
KeyError raised when any access path is missing. -/
def buildFetcherData (f : FetcherFixtureDoc) : Option FetcherFixtureData :=
  match f.fixture_id, f.referee, f.timezone, f.date, f.kickoff_timestamp,
      f.status_long, f.status_short, f.goals_home, f.goals_away,
      f.halftime_home, f.halftime_away, f.fulltime_home, f.fulltime_away,
      f.extratime_home, f.extratime_away, f.penalty_home, f.penalty_away,
      f.venue_id, f.venue_name, f.venue_city, f.league_id, f.league_name,
      f.league_country, f.league_logo, f.league_flag, f.league_season,
      f.league_round, f.home_team_id, f.home_team_name, f.home_team_logo,
      f.away_team_id, f.away_team_name, f.away_team_logo with
  | some fid, some refr, some tz, some dt, some ts, some sl, some ss,
      some gh, some ga, some hh, some ha, some fh, some fa, some eh,
      some ea, some ph, some pa, some vid, some vname, some vcity,
      some lid, some lname, some lcountry, some llogo, some lflag,
      some lseason, some lround, some hid, some hname, some hlogo,
      some aid, some aname, some alogo =>
    some
      { fixture_id := fid, referee := refr, timezone := tz, date := dt,
        kickoff_timestamp := ts, status_long := sl, status_short := ss,
        goals_home := gh, goals_away := ga, halftime_home := hh,
        halftime_away := ha, fulltime_home := fh, fulltime_away := fa,
        extratime_home := eh, extratime_away := ea, penalty_home := ph,
        penalty_away := pa, venue_id := vid, venue_name := vname,
        venue_city := vcity, league_id := lid, league_name := lname,
        league_country := lcountry, league_logo := llogo,
        league_flag := lflag, league_season := lseason,
        league_round := lround, home_team_id := hid,
        home_team_name := hname, home_team_logo := hlogo,
        away_team_id := aid, away_team_name := aname,
        away_team_logo := alogo }
  | _, _, _, _, _, _, _, _, _, _, _, _, _, _, _, _, _, _, _, _, _, _, _,
      _, _, _, _, _, _, _, _, _, _ => none

/-- fixtures_fetcher.py 38-97, the body of upsert_fixture.  It catches
KeyError (a missing access path) and every other exception (the store
call raising, modelled by the storeOk oracle returning false) and returns
a boolean, so the function itself never raises. -/
def upsert_fixture (storeOk : FetcherFixtureData → Bool)
    (f : FetcherFixtureDoc) : Bool :=
  match buildFetcherData f with
  | some fixture_data => storeOk fixture_data
  | none => false

/-- upsert_fixture as deployed: decorated with
retry_on_failure(max_attempts 3, delay_seconds 1)
(fixtures_fetcher.py 38). -/
def decorated_upsert_fixture (storeOk : FetcherFixtureData → Bool)
    (f : FetcherFixtureDoc) : RetryTrace Bool :=
  retry_on_failure 3 1 (fun _ => some (upsert_fixture storeOk f))

/-! ### Prediction batch (app.py 278-304) -/

/-- A provider predictions response body: its response list.  The element
contents are consumed only by the storage call, modelled by the storeOk
oracle; a missing response key and an empty list are both falsy in the
source and collapse to the empty list. -/
structure PredData (π : Type) where
  response : List π
  deriving DecidableEq

/-- One iteration of the as_completed loop in fetch_predictions_batch
(app.py 293-302); the accumulator is
(successful_predictions, failed_predictions). -/
def batchStep {π : Type} (provider : ℤ → Option (PredData π))
    (storeOk : ℤ → PredData π → Bool) (acc : ℕ × List ℤ)
    (fixture_id : ℤ) : ℕ × List ℤ :=
  match provider fixture_id with
  | some result =>
    if !result.response.isEmpty then
      if storeOk fixture_id result then (acc.1 + 1, acc.2)
      else (acc.1, acc.2 ++ [fixture_id])
    else (acc.1, acc.2 ++ [fixture_id])
  | none => (acc.1, acc.2 ++ [fixture_id])

/-- app.py 278-304, fetch_predictions_batch: provider models
fetch_prediction_async (`none` is an HTTP failure or exception), storeOk
models store_prediction_async, and order is the as_completed completion
order of the concurrently dispatched fixture ids. -/
def fetch_predictions_batch {π : Type} (provider : ℤ → Option (PredData π))
    (storeOk : ℤ → PredData π → Bool) (order : List ℤ) : ℕ × List ℤ :=
  order.foldl (batchStep provider storeOk) (0, [])

/-- Success of one fixture id in the batch: the provider returned a
non-empty response list and the storage call succeeded. -/
def predictionSucceeds {π : Type} (provider : ℤ → Option (PredData π))
    (storeOk : ℤ → PredData π → Bool) (fixture_id : ℤ) : Bool :=
  match provider fixture_id with
  | some result => !result.response.isEmpty && storeOk fixture_id result
  | none => false

/-- The provider behavior of the spec's worked example: fixture 2 gets an
empty response list, every other fixture a one-element response. -/
def exampleProvider : ℤ → Option (PredData Unit) :=
  fun fixture_id => if fixture_id = 2 then some ⟨[]⟩ else some ⟨[()]⟩

/-- A storage oracle that always succeeds. -/
def exampleStoreOk : ℤ → PredData Unit → Bool := fun _ _ => true

/-! ### Orchestrator dispatch timing (app.py 610-627 and 428-455) -/

/-- One observable orchestrator action, in program order: dispatching one
provider prediction request, dispatching one provider fixture-date
request, or sleeping. -/
inductive OrchEvent where
  | predCall (fixture_id : ℤ)
  | fixtureFetch (day : ℤ)
  | sleep (seconds : ℕ)
  deriving DecidableEq

/-- Whether an event is a provider prediction dispatch. -/
def isPredCall : OrchEvent → Bool
  | OrchEvent.predCall _ => true
  | _ => false

/-- The batch slicing fixture_ids[i:i+BATCH_SIZE] for i in
range(0, len(fixture_ids), BATCH_SIZE) from app.py 616-617. -/
def chunksOf {α : Type} (n : ℕ) : List α → List (List α)
  | [] => []
  | x :: xs => (x :: xs.take (n - 1)) :: chunksOf n (xs.drop (n - 1))
  termination_by l => l.length
  decreasing_by simp [List.length_drop]; omega

/-- The provider-facing event trace of the manual prediction loop at
app.py 610-627 with BATCH_SIZE = 5: the calls of one batch are dispatched
concurrently, with nothing between them, and each batch is followed by
time.sleep(1). -/
def mainPredictionTrace (fixture_ids : List ℤ) : List OrchEvent :=
  (chunksOf 5 fixture_ids).flatMap
    (fun batch => batch.map OrchEvent.predCall ++ [OrchEvent.sleep 1])

/-- The provider-facing event trace of one scheduled_task firing at
app.py 438-444: the current date and the next two days, with
time.sleep(5) after each fetch. -/
def scheduledFixtureTrace (current_date : ℤ) : List OrchEvent :=
  [OrchEvent.fixtureFetch current_date, OrchEvent.sleep 5,
   OrchEvent.fixtureFetch (current_date + 1), OrchEvent.sleep 5,
   OrchEvent.fixtureFetch (current_date + 2), OrchEvent.sleep 5]

/-- The frozen claim's reading for prediction traffic: some delay stands
between any two successive prediction dispatches, i.e. no two prediction
call events are adjacent in the trace. -/
def predCallsSpaced (tr : List OrchEvent) : Prop :=
  ∀ i, (tr.get? i).any isPredCall = true →
    (tr.get? (i + 1)).any isPredCall = true → False

/-- Adjacent-event discipline of the prediction loop: after a prediction
call the next event is either another concurrently dispatched call of the
same batch or the 1-second delay. -/
def predSpacing (e₁ e₂ : OrchEvent) : Prop :=
  isPredCall e₁ = true → (isPredCall e₂ = true ∨ e₂ = OrchEvent.sleep 1)

/-- Adjacent-event discipline of the scheduled fixture task: a
fixture-date fetch is immediately followed by the 5-second delay. -/
def fetchSpacing (e₁ e₂ : OrchEvent) : Prop :=
  (∃ d, e₁ = OrchEvent.fixtureFetch d) → e₂ = OrchEvent.sleep 5

/-! ### Helper lemmas about the aggregator -/

theorem calc_fst_eq (md : MinuteData) (g : ℕ) (hg : g ≠ 0) :
    (calculate_interval_averages md g).1 =
      if hasFirstHalfData md then
        some (round2 ((sumFirstHalf md : ℚ) / (g : ℚ)))
      else none := by
  simp only [calculate_interval_averages, if_neg hg]
  cases hasFirstHalfData md <;> simp

theorem calc_snd_eq (md : MinuteData) (g : ℕ) (hg : g ≠ 0) :
    (calculate_interval_averages md g).2 =
      if hasSecondHalfData md then
        some (round2 ((sumSecondHalf md : ℚ) / (g : ℚ)))
      else none := by
  simp only [calculate_interval_averages, if_neg hg]
  cases hasSecondHalfData md <;> simp

theorem hasFirstHalfData_false_iff (md : MinuteData) :
    hasFirstHalfData md = false ↔
      ∀ i ∈ first_half_intervals, getTotal md i = none := by
  simp [hasFirstHalfData, List.any_eq_false]

theorem hasSecondHalfData_false_iff (md : MinuteData) :
    hasSecondHalfData md = false ↔
      ∀ i ∈ second_half_intervals, getTotal md i = none := by
  simp [hasSecondHalfData, List.any_eq_false]

/-! ### Theorems for claims C1, C2, C3 -/

/-- C1: for games-played > 0, a half's average is null iff all three of
that half's buckets have a null or missing total; a bucket whose total is
0 counts as data and yields a non-null average. -/
theorem C1_half_average_null_iff (md : MinuteData) (g : ℕ) (hg : 0 < g) :
    ((calculate_interval_averages md g).1 = none ↔
      ∀ i ∈ first_half_intervals, getTotal md i = none) ∧
    ((calculate_interval_averages md g).2 = none ↔
      ∀ i ∈ second_half_intervals, getTotal md i = none) ∧
    (∀ i ∈ first_half_intervals, getTotal md i = some 0 →
      (calculate_interval_averages md g).1 ≠ none) ∧
    (∀ i ∈ second_half_intervals, getTotal md i = some 0 →
      (calculate_interval_averages md g).2 ≠ none) := by
  have hg0 : g ≠ 0 := Nat.pos_iff_ne_zero.mp hg
  have hfh : (calculate_interval_averages md g).1 = none ↔
      ∀ i ∈ first_half_intervals, getTotal md i = none := by
    rw [calc_fst_eq md g hg0, ← hasFirstHalfData_false_iff]
    cases hasFirstHalfData md <;> simp
  have hsh : (calculate_interval_averages md g).2 = none ↔
      ∀ i ∈ second_half_intervals, getTotal md i = none := by
    rw [calc_snd_eq md g hg0, ← hasSecondHalfData_false_iff]
    cases hasSecondHalfData md <;> simp
  refine ⟨hfh, hsh, ?_, ?_⟩
  · intro i hi hzero hc
    have := hfh.mp hc i hi
    rw [hzero] at this; exact Option.noConfusion this
  · intro i hi hzero hc
    have := hsh.mp hc i hi
    rw [hzero] at this; exact Option.noConfusion this

/-- Witness for C1 at a concrete input: games-played 2, a first half whose
only data is a 0 total (non-null average), a second half entirely null. -/
theorem C1_half_average_null_iff_witness :
    (0 : ℕ) < 2 ∧
    ((calculate_interval_averages [("0-15", some 0)] 2).2 = none ↔
      ∀ i ∈ second_half_intervals, getTotal [("0-15", some 0)] i = none) :=
  ⟨by decide, (C1_half_average_null_iff [("0-15", some 0)] 2 (by decide)).2.1⟩

/-- C2: if games-played is 0 the aggregator returns (null, null)
regardless of the bucket contents. -/
theorem C2_zero_games_null (md : MinuteData) :
    calculate_interval_averages md 0 = (none, none) := by
  simp [calculate_interval_averages]

/-- C3: when a half has data and games-played > 0, its average is the
null-as-0 sum of its three buckets divided by games-played, rounded to 2
decimals; at the spec's worked example with games-played 2 the first-half
average is 1.0. -/
theorem C3_average_formula (md : MinuteData) (g : ℕ) (hg : 0 < g) :
    (hasFirstHalfData md = true →
      (calculate_interval_averages md g).1 =
        some (round2 ((sumFirstHalf md : ℚ) / (g : ℚ)))) ∧
    (hasSecondHalfData md = true →
      (calculate_interval_averages md g).2 =
        some (round2 ((sumSecondHalf md : ℚ) / (g : ℚ)))) ∧
    (calculate_interval_averages exampleBuckets 2).1 = some 1 := by
  have hg0 : g ≠ 0 := Nat.pos_iff_ne_zero.mp hg
  refine ⟨?_, ?_, ?_⟩
  · intro h; rw [calc_fst_eq md g hg0, if_pos h]
  · intro h; rw [calc_snd_eq md g hg0, if_pos h]
  · have h2 : (2 : ℕ) ≠ 0 := by decide
    rw [calc_fst_eq exampleBuckets 2 h2,
      if_pos (show hasFirstHalfData exampleBuckets = true by decide)]
    have hz : sumFirstHalf exampleBuckets = 2 := by decide
    have hsum : (sumFirstHalf exampleBuckets : ℚ) = 2 := by rw [hz]; norm_num
    rw [hsum]
    norm_num [round2]

/-- Witness for C3 at the spec's worked example. -/
theorem C3_average_formula_witness :
    hasFirstHalfData exampleBuckets = true ∧
    (calculate_interval_averages exampleBuckets 2).1 =
      some (round2 ((sumFirstHalf exampleBuckets : ℚ) / (2 : ℚ))) :=
  ⟨by decide, (C3_average_formula exampleBuckets 2 (by decide)).1 (by decide)⟩

/-- C10 as frozen is false on the code: for a team with home-games 1 and
away-games 2 whose goal buckets are all absent, the claim's formula
round(S / home-games, 2) with S the null-as-0 sum gives 0, but the code
stores a null average for that half, not 0. -/
theorem C10_counterexample :
    (process_team_stats tdAllNull).scored_home_first_half_average = some none ∧
    round2 ((sumFirstHalf tdAllNull.goals_for_minute : ℚ) /
      (tdAllNull.home_games : ℚ)) = 0 ∧
    (some none : Option (Option ℚ)) ≠
      some (some (round2 ((sumFirstHalf tdAllNull.goals_for_minute : ℚ) /
        (tdAllNull.home_games : ℚ)))) := by
  refine ⟨?_, ?_, ?_⟩
  · decide
  · have hz : sumFirstHalf tdAllNull.goals_for_minute = 0 := by decide
    rw [hz]
    norm_num [round2]
  · have hz : sumFirstHalf tdAllNull.goals_for_minute = 0 := by decide
    rw [hz]
    norm_num [round2]
    decide

/-- C10 amended: for a team with home-games > 0 and away-games > 0, when a
half of the goal buckets has at least one non-null total, the home-venue
and away-venue averages for that half are computed from the identical
null-as-0 bucket sum S, differing only in the divisor (round(S/home, 2)
versus round(S/away, 2)); when a half is entirely null both venue averages
are null; and when a venue has 0 games played that venue's average keys
are absent from the computed stats and persist as null in the stats
record. -/
theorem C10_amended_venue_split (td : TeamData) :
    (0 < td.home_games → 0 < td.away_games →
      (hasFirstHalfData td.goals_for_minute = true →
        (process_team_stats td).scored_home_first_half_average =
          some (some (round2 ((sumFirstHalf td.goals_for_minute : ℚ) /
            (td.home_games : ℚ)))) ∧
        (process_team_stats td).scored_away_first_half_average =
          some (some (round2 ((sumFirstHalf td.goals_for_minute : ℚ) /
            (td.away_games : ℚ))))) ∧
      (hasSecondHalfData td.goals_for_minute = true →
        (process_team_stats td).scored_home_second_half_average =
          some (some (round2 ((sumSecondHalf td.goals_for_minute : ℚ) /
            (td.home_games : ℚ)))) ∧
        (process_team_stats td).scored_away_second_half_average =
          some (some (round2 ((sumSecondHalf td.goals_for_minute : ℚ) /
            (td.away_games : ℚ))))) ∧
      (hasFirstHalfData td.goals_against_minute = true →
        (process_team_stats td).conceded_home_first_half_average =
          some (some (round2 ((sumFirstHalf td.goals_against_minute : ℚ) /
            (td.home_games : ℚ)))) ∧
        (process_team_stats td).conceded_away_first_half_average =
          some (some (round2 ((sumFirstHalf td.goals_against_minute : ℚ) /
            (td.away_games : ℚ))))) ∧
      (hasSecondHalfData td.goals_against_minute = true →
        (process_team_stats td).conceded_home_second_half_average =
          some (some (round2 ((sumSecondHalf td.goals_against_minute : ℚ) /
            (td.home_games : ℚ)))) ∧
        (process_team_stats td).conceded_away_second_half_average =
          some (some (round2 ((sumSecondHalf td.goals_against_minute : ℚ) /
            (td.away_games : ℚ))))) ∧
      (hasFirstHalfData td.goals_for_minute = false →
        (process_team_stats td).scored_home_first_half_average = some none ∧
        (process_team_stats td).scored_away_first_half_average = some none) ∧
      (hasSecondHalfData td.goals_for_minute = false →
        (process_team_stats td).scored_home_second_half_average = some none ∧
        (process_team_stats td).scored_away_second_half_average
          = some none) ∧
      (hasFirstHalfData td.goals_against_minute = false →
        (process_team_stats td).conceded_home_first_half_average
          = some none ∧
        (process_team_stats td).conceded_away_first_half_average
          = some none) ∧
      (hasSecondHalfData td.goals_against_minute = false →
        (process_team_stats td).conceded_home_second_half_average
          = some none ∧
        (process_team_stats td).conceded_away_second_half_average
          = some none)) ∧
    (td.home_games = 0 →
      (process_team_stats td).scored_home_first_half_average = none ∧
      (process_team_stats td).scored_home_second_half_average = none ∧
      (process_team_stats td).conceded_home_first_half_average = none ∧
      (process_team_stats td).conceded_home_second_half_average = none ∧
      (statsRecordHalf (process_team_stats td)).scored_home_first_half_average
        = none ∧
      (statsRecordHalf
        (process_team_stats td)).scored_home_second_half_average = none ∧
      (statsRecordHalf
        (process_team_stats td)).conceded_home_first_half_average = none ∧
      (statsRecordHalf
        (process_team_stats td)).conceded_home_second_half_average = none) ∧
    (td.away_games = 0 →
      (process_team_stats td).scored_away_first_half_average = none ∧
      (process_team_stats td).scored_away_second_half_average = none ∧
      (process_team_stats td).conceded_away_first_half_average = none ∧
      (process_team_stats td).conceded_away_second_half_average = none ∧
      (statsRecordHalf (process_team_stats td)).scored_away_first_half_average
        = none ∧
      (statsRecordHalf
        (process_team_stats td)).scored_away_second_half_average = none ∧
      (statsRecordHalf
        (process_team_stats td)).conceded_away_first_half_average = none ∧
      (statsRecordHalf
        (process_team_stats td)).conceded_away_second_half_average
        = none) := by
  refine ⟨?_, ?_, ?_⟩
  · intro h1 h2
    have hg1 : td.home_games ≠ 0 := Nat.pos_iff_ne_zero.mp h1
    have hg2 : td.away_games ≠ 0 := Nat.pos_iff_ne_zero.mp h2
    have h3 : 0 < td.home_games + td.away_games := by omega
    refine ⟨?_, ?_, ?_, ?_, ?_, ?_, ?_, ?_⟩ <;> intro hd <;>
      simp [process_team_stats, h1, h2, h3, calc_fst_eq _ _ hg1,
        calc_fst_eq _ _ hg2, calc_snd_eq _ _ hg1, calc_snd_eq _ _ hg2, hd]
  · intro h0
    have hh : ¬ 0 < td.home_games := by omega
    by_cases ha : 0 < td.away_games
    · have h3 : 0 < td.home_games + td.away_games := by omega
      simp [process_team_stats, hh, ha, h3, statsRecordHalf]
    · have h3 : ¬ 0 < td.home_games + td.away_games := by omega
      simp [process_team_stats, hh, ha, h3, statsRecordHalf]
  · intro h0
    have ha : ¬ 0 < td.away_games := by omega
    by_cases hh : 0 < td.home_games
    · have h3 : 0 < td.home_games + td.away_games := by omega
      simp [process_team_stats, hh, ha, h3, statsRecordHalf]
    · have h3 : ¬ 0 < td.home_games + td.away_games := by omega
      simp [process_team_stats, hh, ha, h3, statsRecordHalf]

/-- Witness for C10 at concrete inputs: a team with 2 home and 4 away
games whose buckets have first-half data but an entirely absent second
half, a team with no home games, and a team with no away games. -/
theorem C10_amended_venue_split_witness :
    ((process_team_stats tdBothVenues).scored_home_first_half_average =
      some (some (round2 ((sumFirstHalf tdBothVenues.goals_for_minute : ℚ) /
        (tdBothVenues.home_games : ℚ)))) ∧
     (process_team_stats tdBothVenues).scored_away_first_half_average =
      some (some (round2 ((sumFirstHalf tdBothVenues.goals_for_minute : ℚ) /
        (tdBothVenues.away_games : ℚ))))) ∧
    ((process_team_stats tdBothVenues).scored_home_second_half_average =
      some none ∧
     (process_team_stats tdBothVenues).scored_away_second_half_average =
      some none) ∧
    ((process_team_stats tdBothVenues).conceded_home_second_half_average =
      some none ∧
     (process_team_stats tdBothVenues).conceded_away_second_half_average =
      some none) ∧
    (process_team_stats tdNoHome).scored_home_first_half_average = none ∧
    (statsRecordHalf
      (process_team_stats tdNoHome)).conceded_home_second_half_average
      = none ∧
    (process_team_stats tdNoAway).scored_away_first_half_average = none ∧
    (statsRecordHalf
      (process_team_stats tdNoAway)).conceded_away_second_half_average
      = none :=
  ⟨((C10_amended_venue_split tdBothVenues).1 (by decide) (by decide)).1
      (by decide),
   ((C10_amended_venue_split tdBothVenues).1 (by decide)
      (by decide)).2.2.2.2.2.1 (by decide),
   ((C10_amended_venue_split tdBothVenues).1 (by decide)
      (by decide)).2.2.2.2.2.2.2 (by decide),
   ((C10_amended_venue_split tdNoHome).2.1 (by decide)).1,
   ((C10_amended_venue_split tdNoHome).2.1 (by decide)).2.2.2.2.2.2.2,
   ((C10_amended_venue_split tdNoAway).2.2 (by decide)).1,
   ((C10_amended_venue_split tdNoAway).2.2 (by decide)).2.2.2.2.2.2.2⟩

theorem option_bind_const_none {α β : Type} (x : Option α) :
    (x.bind fun _ => (none : Option β)) = none := by
  cases x <;> rfl

theorem count_true_map_eq_length_filter (f : FixtureDoc → Bool)
    (docs : List FixtureDoc) :
    (docs.map f).count true = (docs.filter f).length := by
  induction docs with
  | nil => rfl
  | cons d rest ih =>
    cases h : f d <;>
      simp [List.count_cons, List.filter_cons, h, ih]

/-- C6: a fixture document missing a team or league identifier makes
store_fixture_async report a record-level boolean failure; in a batch it
does not prevent the other fixtures from being counted, and the returned
integer counts exactly the successfully stored fixtures. -/
theorem C6_per_record_failure (storeOk : FixtureRecord → Bool) (now : String)
    (pre post : List FixtureDoc) (d : FixtureDoc)
    (hmiss : d.home_team_id = none ∨ d.away_team_id = none ∨
      d.league_id = none) :
    store_fixture_async storeOk now d = false ∧
    fetch_and_store_fixtures storeOk now (some (pre ++ d :: post)) =
      fetch_and_store_fixtures storeOk now (some pre) +
      fetch_and_store_fixtures storeOk now (some post) ∧
    fetch_and_store_fixtures storeOk now (some (pre ++ d :: post)) =
      ((pre ++ d :: post).filter (store_fixture_async storeOk now)).length := by
  have hb : buildFixtureRecord now d = none := by
    unfold buildFixtureRecord
    split
    · rcases hmiss with h | h | h <;> simp_all
    · rfl
  have hstore : store_fixture_async storeOk now d = false := by
    simp [store_fixture_async, hb]
  refine ⟨hstore, ?_, ?_⟩
  · simp [fetch_and_store_fixtures, List.count_append, List.count_cons, hstore]
  · exact count_true_map_eq_length_filter (store_fixture_async storeOk now)
      (pre ++ d :: post)

/-- Witness for C6: a three-document batch whose middle document lacks the
league identifier stores 2 fixtures. -/
theorem C6_per_record_failure_witness :
    store_fixture_async (fun _ => true) "now" docMissingLeague = false ∧
    fetch_and_store_fixtures (fun _ => true) "now"
        (some ([docGood] ++ docMissingLeague :: [docGood])) =
      fetch_and_store_fixtures (fun _ => true) "now" (some [docGood]) +
      fetch_and_store_fixtures (fun _ => true) "now" (some [docGood]) :=
  ⟨(C6_per_record_failure (fun _ => true) "now" [docGood] [docGood]
      docMissingLeague (Or.inr (Or.inr rfl))).1,
   (C6_per_record_failure (fun _ => true) "now" [docGood] [docGood]
      docMissingLeague (Or.inr (Or.inr rfl))).2.1⟩

theorem ingestRun_cons {α : Type} (t : Table α) (r : ℤ × α)
    (rs : List (ℤ × α)) :
    ingestRun t (r :: rs) = ingestRun (upsertRow t r.1 r.2) rs := rfl

theorem tableKeys_upsertRow {α : Type} (t : Table α) (k : ℤ) (v : α) :
    tableKeys (upsertRow t k v) =
      if k ∈ tableKeys t then tableKeys t else tableKeys t ++ [k] := by
  unfold upsertRow tableKeys
  split
  · rw [List.map_map]
    apply List.map_congr_left
    intro p _
    by_cases h : p.1 = k
    · simp [h]
    · simp [h]
  · simp

theorem length_upsertRow {α : Type} (t : Table α) (k : ℤ) (v : α) :
    (upsertRow t k v).length =
      if k ∈ tableKeys t then t.length else t.length + 1 := by
  unfold upsertRow
  split <;> simp

theorem mem_tableKeys_upsertRow_self {α : Type} (t : Table α) (k : ℤ)
    (v : α) : k ∈ tableKeys (upsertRow t k v) := by
  rw [tableKeys_upsertRow]
  split
  · assumption
  · simp

theorem mem_tableKeys_upsertRow_of_mem {α : Type} (t : Table α) (k : ℤ)
    (v : α) (a : ℤ) (h : a ∈ tableKeys t) :
    a ∈ tableKeys (upsertRow t k v) := by
  rw [tableKeys_upsertRow]
  split <;> simp [h]

theorem mem_tableKeys_ingestRun_of_mem {α : Type} (rs : List (ℤ × α))
    (t : Table α) (a : ℤ) (h : a ∈ tableKeys t) :
    a ∈ tableKeys (ingestRun t rs) := by
  induction rs generalizing t with
  | nil => exact h
  | cons s rs ih =>
    rw [ingestRun_cons]
    exact ih _ (mem_tableKeys_upsertRow_of_mem _ _ _ _ h)

theorem tableKeys_sub_ingestRun {α : Type} (rs : List (ℤ × α))
    (t : Table α) : ∀ r ∈ rs, r.1 ∈ tableKeys (ingestRun t rs) := by
  induction rs generalizing t with
  | nil => intro r hr; cases hr
  | cons s rs ih =>
    intro r hr
    rcases List.mem_cons.mp hr with h | h
    · subst h
      rw [ingestRun_cons]
      exact mem_tableKeys_ingestRun_of_mem rs _ _
        (mem_tableKeys_upsertRow_self t r.1 r.2)
    · rw [ingestRun_cons]
      exact ih _ r h

theorem length_ingestRun_of_keys_present {α : Type} (rs : List (ℤ × α))
    (t : Table α) (h : ∀ r ∈ rs, r.1 ∈ tableKeys t) :
    (ingestRun t rs).length = t.length := by
  induction rs generalizing t with
  | nil => rfl
  | cons s rs ih =>
    rw [ingestRun_cons]
    have hs : s.1 ∈ tableKeys t := h s (List.mem_cons_self s rs)
    have hlen : (upsertRow t s.1 s.2).length = t.length := by
      rw [length_upsertRow, if_pos hs]
    rw [ih _ (fun r hr =>
      mem_tableKeys_upsertRow_of_mem _ _ _ _ (h r (List.mem_cons_of_mem s hr)))]
    exact hlen

theorem nodup_tableKeys_upsertRow {α : Type} (t : Table α) (k : ℤ) (v : α)
    (h : (tableKeys t).Nodup) : (tableKeys (upsertRow t k v)).Nodup := by
  rw [tableKeys_upsertRow]
  split
  · exact h
  · rename_i hk
    simp [List.nodup_append, h, hk]

theorem filter_key_eq_nil {α : Type} (t : Table α) (k : ℤ)
    (hk : k ∉ tableKeys t) :
    t.filter (fun p => decide (p.1 = k)) = [] := by
  rw [List.filter_eq_nil_iff]
  intro p hp
  simp only [decide_eq_true_eq]
  intro hcontra
  exact hk (hcontra ▸ List.mem_map_of_mem Prod.fst hp)

theorem filter_key_of_nodup {α : Type} (t : Table α) (k : ℤ)
    (hN : (tableKeys t).Nodup) (hk : k ∈ tableKeys t) :
    ∃ w, t.filter (fun p => decide (p.1 = k)) = [(k, w)] := by
  induction t with
  | nil => simp [tableKeys] at hk
  | cons q t ih =>
    obtain ⟨k₁, w₁⟩ := q
    have hN' : k₁ ∉ tableKeys t ∧ (tableKeys t).Nodup := by
      have := hN
      simp only [tableKeys, List.map_cons, List.nodup_cons] at this
      exact this
    rw [List.filter_cons]
    by_cases hq : k₁ = k
    · subst hq
      refine ⟨w₁, ?_⟩
      rw [if_pos (by simp)]
      rw [filter_key_eq_nil t k₁ hN'.1]
    · rw [if_neg (by simp [hq])]
      have hk' : k ∈ tableKeys t := by
        have := hk
        simp only [tableKeys, List.map_cons, List.mem_cons] at this
        rcases this with h | h
        · exact absurd h.symm hq
        · exact h
      exact ih hN'.2 hk'

theorem upsertRow_filter {α : Type} (t : Table α) (k : ℤ) (v : α)
    (hN : (tableKeys t).Nodup) :
    (upsertRow t k v).filter (fun p => decide (p.1 = k)) = [(k, v)] := by
  unfold upsertRow
  split
  · rename_i hk
    obtain ⟨w, hw⟩ := filter_key_of_nodup t k hN hk
    rw [List.filter_map]
    have hfun :
        ((fun p => decide ((p : ℤ × α).1 = k)) ∘
          (fun p => if p.1 = k then (k, v) else p)) =
        (fun p => decide ((p : ℤ × α).1 = k)) := by
      funext q
      by_cases h : q.1 = k <;> simp [h]
    rw [hfun, hw]
    simp
  · rename_i hk
    rw [List.filter_append, filter_key_eq_nil t k hk]
    simp

/-- C4: upserting twice with the same conflict key leaves exactly one row
for that key, carrying wholesale the second record's fields, and
re-running a fixture-ingestion batch leaves the row count unchanged. -/
theorem C4_upsert_second_wins {α : Type} (t : Table α) (k : ℤ) (v₁ v₂ : α)
    (rs : List (ℤ × α)) (hN : (tableKeys t).Nodup) :
    (upsertRow (upsertRow t k v₁) k v₂).filter (fun p => decide (p.1 = k)) =
      [(k, v₂)] ∧
    (ingestRun (ingestRun t rs) rs).length = (ingestRun t rs).length := by
  constructor
  · exact upsertRow_filter _ k v₂ (nodup_tableKeys_upsertRow t k v₁ hN)
  · exact length_ingestRun_of_keys_present rs _ (tableKeys_sub_ingestRun rs t)

/-- Witness for C4 at a concrete one-row table and a two-record batch. -/
theorem C4_upsert_second_wins_witness :
    (upsertRow (upsertRow ([(5, "a")] : Table String) 7 "b") 7 "c").filter
        (fun p => decide (p.1 = 7)) = [(7, "c")] ∧
    (ingestRun (ingestRun ([(5, "a")] : Table String) [(1, "x"), (5, "q")])
        [(1, "x"), (5, "q")]).length =
      (ingestRun ([(5, "a")] : Table String) [(1, "x"), (5, "q")]).length :=
  C4_upsert_second_wins [(5, "a")] 7 "b" "c" [(1, "x"), (5, "q")] (by decide)

/-- C7: with max_attempts 3 and delay_seconds 1, an operation that raises
on every invocation is invoked exactly 3 times, the wrapper sleeps 1
second between consecutive attempts but not after the last (two sleeps of
1 second), and the caller receives the boolean-false outcome instead of
the underlying error. -/
theorem C7_retry_three_attempts {A : Type} (f : ℕ → Option A)
    (h : ∀ i, f i = none) :
    retry_on_failure 3 1 f =
      { result := none, calls := 3, sleeps := [1, 1] } := by
  simp [retry_on_failure, retryLoop, h]

/-- Witness for C7 with the always-raising operation. -/
theorem C7_retry_three_attempts_witness :
    retry_on_failure 3 1 (fun _ => (none : Option Bool)) =
      { result := none, calls := 3, sleeps := [1, 1] } :=
  C7_retry_three_attempts (fun _ => (none : Option Bool)) (fun _ => rfl)

/-- C9: because upsert_fixture catches every exception and returns a
boolean, the retry decorator never observes a failure: for every document
and store behavior the decorated call invokes the operation exactly once
with no sleeps, even when persistence fails (storeOk constantly false),
so the 3-attempt retry is unreachable for this operation. -/
theorem C9_retry_unreachable (storeOk : FetcherFixtureData → Bool)
    (f : FetcherFixtureDoc) :
    decorated_upsert_fixture storeOk f =
      { result := some (upsert_fixture storeOk f), calls := 1,
        sleeps := [] } ∧
    decorated_upsert_fixture (fun _ => false) f =
      { result := some false, calls := 1, sleeps := [] } := by
  constructor
  · simp [decorated_upsert_fixture, retry_on_failure, retryLoop]
  · have hfalse : upsert_fixture (fun _ => false) f = false := by
      unfold upsert_fixture
      cases buildFetcherData f <;> rfl
    simp [decorated_upsert_fixture, retry_on_failure, retryLoop, hfalse]

theorem batchStep_eq {π : Type} (provider : ℤ → Option (PredData π))
    (storeOk : ℤ → PredData π → Bool) (n : ℕ) (fs : List ℤ) (fid : ℤ) :
    batchStep provider storeOk (n, fs) fid =
      if predictionSucceeds provider storeOk fid then (n + 1, fs)
      else (n, fs ++ [fid]) := by
  unfold batchStep predictionSucceeds
  cases hp : provider fid with
  | none => simp
  | some r =>
    by_cases he : r.response.isEmpty <;>
      by_cases hs : storeOk fid r <;> simp [he, hs]

theorem batch_foldl_shift {π : Type} (provider : ℤ → Option (PredData π))
    (storeOk : ℤ → PredData π → Bool) (order : List ℤ) (n : ℕ)
    (fs : List ℤ) :
    order.foldl (batchStep provider storeOk) (n, fs) =
      (n + (order.filter (predictionSucceeds provider storeOk)).length,
       fs ++ order.filter
         (fun i => !(predictionSucceeds provider storeOk i))) := by
  induction order generalizing n fs with
  | nil => simp
  | cons fid rest ih =>
    rw [List.foldl_cons, batchStep_eq]
    by_cases hsucc : predictionSucceeds provider storeOk fid = true
    · rw [if_pos hsucc, ih]
      simp only [List.filter_cons, hsucc]
      refine Prod.ext ?_ ?_ <;> simp
      omega
    · rw [if_neg hsucc, ih]
      have hsucc' : predictionSucceeds provider storeOk fid = false := by
        simpa using hsucc
      simp only [List.filter_cons, hsucc']
      refine Prod.ext ?_ ?_ <;> simp

/-- C5: a prediction batch reports the number of ids whose provider call
returned a non-empty response and whose storage succeeded, and the
explicit list of the other ids; an id is in the failed list exactly when
it was dispatched and its provider call returned no or an empty response
or its storage failed.  Over ids [1, 2, 3] with an empty response for id
2 the batch yields success count 2 and failed list [2]. -/
theorem C5_batch_outcome {π : Type} (provider : ℤ → Option (PredData π))
    (storeOk : ℤ → PredData π → Bool) (order : List ℤ) :
    fetch_predictions_batch provider storeOk order =
      ((order.filter (predictionSucceeds provider storeOk)).length,
       order.filter (fun i => !(predictionSucceeds provider storeOk i))) ∧
    (∀ fid, fid ∈ (fetch_predictions_batch provider storeOk order).2 ↔
      (fid ∈ order ∧ predictionSucceeds provider storeOk fid = false)) ∧
    fetch_predictions_batch exampleProvider exampleStoreOk [1, 2, 3] =
      (2, [2]) := by
  have hmain : fetch_predictions_batch provider storeOk order =
      ((order.filter (predictionSucceeds provider storeOk)).length,
       order.filter (fun i => !(predictionSucceeds provider storeOk i))) := by
    unfold fetch_predictions_batch
    rw [batch_foldl_shift]
    simp
  refine ⟨hmain, ?_, by decide⟩
  intro fid
  rw [hmain]
  simp [List.mem_filter]

/-- C8 as frozen is false on the code: with two upcoming fixtures the
prediction loop dispatches both provider calls of the one batch back to
back with no delay between them; the fixed delay only follows the whole
batch. -/
theorem C8_counterexample :
    ¬ predCallsSpaced (mainPredictionTrace [1, 2]) := by
  have htr : mainPredictionTrace [1, 2] =
      [OrchEvent.predCall 1, OrchEvent.predCall 2, OrchEvent.sleep 1] := by
    simp [mainPredictionTrace, chunksOf]
  intro h
  exact h 0 (by rw [htr]; rfl) (by rw [htr]; rfl)

theorem chain_predSpacing_block (b : List ℤ) :
    List.Chain' predSpacing (b.map OrchEvent.predCall) := by
  induction b with
  | nil => simp
  | cons x xs ihb =>
    cases xs with
    | nil => simp
    | cons y ys =>
      rw [List.map_cons, List.map_cons, List.chain'_cons]
      refine ⟨fun _ => Or.inl rfl, ?_⟩
      rw [← List.map_cons]
      exact ihb

theorem chain_predSpacing_blocks (bs : List (List ℤ)) :
    List.Chain' predSpacing
      (bs.flatMap
        (fun batch => batch.map OrchEvent.predCall ++ [OrchEvent.sleep 1])) := by
  induction bs with
  | nil => simp
  | cons b bs ih =>
    rw [List.flatMap_cons, List.chain'_append]
    refine ⟨?_, ih, ?_⟩
    · rw [List.chain'_append]
      refine ⟨chain_predSpacing_block b, by simp, ?_⟩
      intro x hx y hy
      simp only [List.head?_cons, Option.mem_def, Option.some.injEq] at hy
      subst hy
      exact fun _ => Or.inr rfl
    · intro x hx y hy
      have hlast : x = OrchEvent.sleep 1 := by
        rw [List.getLast?_concat] at hx
        exact (by simpa using hx : OrchEvent.sleep 1 = x).symm
      subst hlast
      intro hc
      simp [isPredCall] at hc

theorem sleep_mem_blocks (bs : List (List ℤ)) (s : ℕ)
    (h : OrchEvent.sleep s ∈
      bs.flatMap
        (fun batch => batch.map OrchEvent.predCall ++ [OrchEvent.sleep 1])) :
    s = 1 := by
  rw [List.mem_flatMap] at h
  obtain ⟨b, _, hmem⟩ := h
  rw [List.mem_append] at hmem
  rcases hmem with hmem | hmem
  · obtain ⟨x, _, hx⟩ := List.mem_map.mp hmem
    exact absurd hx (by simp)
  · simpa using hmem

/-- C8 amended: the orchestrator rate-limits at batch granularity, not per
call: in the prediction loop every event following a prediction dispatch
is either another concurrently dispatched call of the same batch of at
most 5 or the fixed 1-second delay, and every delay in that trace is 1
second; in the scheduled fixture task every fixture-date fetch is
immediately followed by the fixed 5-second delay, and every delay in that
trace is 5 seconds. -/
theorem C8_amended_batch_delay (fixture_ids : List ℤ) (current_date : ℤ) :
    List.Chain' predSpacing (mainPredictionTrace fixture_ids) ∧
    (∀ s, OrchEvent.sleep s ∈ mainPredictionTrace fixture_ids → s = 1) ∧
    List.Chain' fetchSpacing (scheduledFixtureTrace current_date) ∧
    (∀ s, OrchEvent.sleep s ∈ scheduledFixtureTrace current_date →
      s = 5) := by
  refine ⟨chain_predSpacing_blocks (chunksOf 5 fixture_ids),
    fun s hs => sleep_mem_blocks (chunksOf 5 fixture_ids) s hs, ?_, ?_⟩
  · simp [scheduledFixtureTrace, List.chain'_cons, fetchSpacing]
  · intro s hs
    simpa [scheduledFixtureTrace] using hs
